import Mathlib

/-!
Verification development for the chusea document-workflow backend.

The definitions below are shallow embeddings of the Python sources:

* `backend/core/citation_validator.py` — DOI cleaning, citation extraction
  (the two regular expressions), `validate_bibliography`;
* `backend/core/readability_analyzer.py` — text cleaning, sentence/word/
  syllable statistics, the Flesch score and its clamping, language detection;
* `backend/core/workflow_engine.py` — the per-stage state transitions
  (`draft_document`, `check_citations`, `check_grammar`, `check_readability`,
  `rollback_to_draft`) over an explicit engine state;
* `backend/api/routes/workflow.py` — the `rollback_to_node` route.

Machine floats of the source are modelled as rationals; wall-clock fields
(`processing_time`, timestamps) are modelled by a monotone counter.
External collaborators (the LLM client, jieba word segmentation, the
CrossRef service) are parameters of the corresponding functions.
-/

namespace Chusea

/-! ## Python string primitives -/

/-- Whitespace characters of Python `str.strip` / regex `\s` (ASCII range;
other Unicode whitespace does not occur in the texts considered here). -/
def isPyWs (c : Char) : Bool :=
  c == ' ' || c == '\t' || c == '\n' || c == '\r' || c == '\x0b' || c == '\x0c'

/-- Python `str.strip()`: drop whitespace from both ends. -/
def pyStrip (l : List Char) : List Char :=
  ((l.dropWhile isPyWs).reverse.dropWhile isPyWs).reverse

/-- Boolean prefix test on character lists. -/
def isPrefixList : List Char → List Char → Bool
  | [], _ => true
  | _ :: _, [] => false
  | a :: as, b :: bs => a == b && isPrefixList as bs

/-- Whether `p` occurs as a contiguous substring of `l`. -/
def containsSub (p : List Char) : List Char → Bool
  | [] => p.isEmpty
  | c :: cs => isPrefixList p (c :: cs) || containsSub p cs

/-- Python `s.replace(pat, "")`: remove every occurrence of `pat`, scanning
left to right and resuming after each removed occurrence.  Any
`fuel ≥ l.length` computes the full scan, since each step consumes at least
one character of a nonempty `pat`. -/
def removeAllAux (p : List Char) : Nat → List Char → List Char
  | _, [] => []
  | 0, l => l
  | fuel + 1, c :: cs =>
    if isPrefixList p (c :: cs) then
      removeAllAux p fuel ((c :: cs).drop p.length)
    else
      c :: removeAllAux p fuel cs

/-- Python `s.replace(pat, "")` at standard fuel. -/
def removeAll (p l : List Char) : List Char :=
  removeAllAux p l.length l

/-! ## DOI cleaning (`citation_validator.py`, `validate_doi`, line 63) -/

def doiUrlPat : List Char := "https://doi.org/".data

def doiDxPat : List Char := "http://dx.doi.org/".data

/-- The cleaning step at the start of DOI resolution:
`doi.strip().replace("https://doi.org/", "").replace("http://dx.doi.org/", "")`. -/
def cleanDoi (l : List Char) : List Char :=
  removeAll doiDxPat (removeAll doiUrlPat (pyStrip l))

/-- Modelled from the spec (for comparison with `cleanDoi`): `normalize_doi`
as the spec words it — trim, strip the *leading* URL prefixes
`https://doi.org/` and `http://dx.doi.org/`, lowercase. -/
def specNormalizeDoi (l : List Char) : List Char :=
  let t0 := pyStrip l
  let t1 := if isPrefixList doiUrlPat t0 then t0.drop doiUrlPat.length else t0
  let t2 := if isPrefixList doiDxPat t1 then t1.drop doiDxPat.length else t1
  t2.map Char.toLower

/-! ## Citation extraction (`extract_citations_from_text`)

The two regular expressions of the source are embedded directly:
`\[(\d+)\]` for numbered citations and `\(([A-Za-z\s,]+),\s*(\d{4})\)` for
author-year citations, with Python's leftmost, non-overlapping, greedy
(backtracking) match semantics. -/

/-- Natural number denoted by a list of ASCII digits (Python `int`). -/
def digitsToNat (l : List Char) : Nat :=
  l.foldl (fun acc c => 10 * acc + (c.toNat - '0'.toNat)) 0

/-- Single-position match of `\[(\d+)\]`.
Returns (group-1 value, matched length, remainder). -/
def tryNumbered : List Char → Option (Nat × Nat × List Char)
  | '[' :: rest =>
    let ds := rest.takeWhile Char.isDigit
    if ds.isEmpty then none
    else
      match rest.drop ds.length with
      | ']' :: rem => some (digitsToNat ds, ds.length + 2, rem)
      | _ => none
  | _ => none

/-- Character class `[A-Za-z\s,]` of the author-year pattern. -/
def isAyClassChar (c : Char) : Bool :=
  c.isAlpha || isPyWs c || c == ','

/-- Match of the tail `,\s*(\d{4})\)` of the author-year pattern.
Returns (year, consumed length, remainder).  `\s*` is maximal-munch here
because whitespace and digits are disjoint, and `\d{4}` admits no
backtracking. -/
def ayTail : List Char → Option (Nat × Nat × List Char)
  | ',' :: r =>
    let ws := r.takeWhile isPyWs
    match r.drop ws.length with
    | d1 :: d2 :: d3 :: d4 :: ')' :: rem =>
      if d1.isDigit && d2.isDigit && d3.isDigit && d4.isDigit then
        some (digitsToNat [d1, d2, d3, d4], 1 + ws.length + 5, rem)
      else none
    | _ => none
  | _ => none

/-- Greedy back-off over the length of group 1 `[A-Za-z\s,]+`: try the
maximal class run length first, then shorter lengths, down to 1. -/
def ayGroup1 (rest : List Char) : Nat → Option (Nat × Nat × Nat × List Char)
  | 0 => none
  | k + 1 =>
    match ayTail (rest.drop (k + 1)) with
    | some (year, tc, rem) => some (k + 1, year, tc, rem)
    | none => ayGroup1 rest k

/-- Single-position match of `\(([A-Za-z\s,]+),\s*(\d{4})\)`.
Returns ((group 1, year), matched length, remainder). -/
def tryAuthorYear : List Char → Option ((List Char × Nat) × Nat × List Char)
  | '(' :: rest =>
    let cls := rest.takeWhile isAyClassChar
    match ayGroup1 rest cls.length with
    | some (k, year, tc, rem) => some ((rest.take k, year), 1 + k + tc, rem)
    | none => none
  | _ => none

/-- `re.finditer` driver: scan left to right, resume after each match.
Any `fuel ≥ l.length` computes the full scan, since every match of the two
patterns above consumes at least one character.  Produces
(match data, span start, span end) triples. -/
def scanMatches {α : Type} (tryM : List Char → Option (α × Nat × List Char)) :
    Nat → Nat → List Char → List (α × Nat × Nat)
  | _, _, [] => []
  | 0, _, _ => []
  | fuel + 1, pos, c :: cs =>
    match tryM (c :: cs) with
    | some (a, len, rem) => (a, pos, pos + len) :: scanMatches tryM fuel (pos + len) rem
    | none => scanMatches tryM fuel (pos + 1) cs

/-- An extracted citation, as one entry of the list built by
`extract_citations_from_text` (`type`, payload, `position`, `text`). -/
inductive Citation where
  | numbered (number : Nat) (position : Nat × Nat) (text : List Char)
  | authorYear (authors : List Char) (year : Nat) (position : Nat × Nat) (text : List Char)
deriving DecidableEq

/-- `extract_citations_from_text`: one `finditer` pass for the numbered
pattern, then one for the author-year pattern; the two result lists are
concatenated in that order.  Group 1 of an author-year match is stripped
(`match.group(1).strip()`). -/
def extract_citations_from_text (text : List Char) : List Citation :=
  let nums := scanMatches tryNumbered text.length 0 text
  let ays := scanMatches tryAuthorYear text.length 0 text
  (nums.map fun m =>
    Citation.numbered m.1 (m.2.1, m.2.2) ((text.drop m.2.1).take (m.2.2 - m.2.1))) ++
  (ays.map fun m =>
    Citation.authorYear (pyStrip m.1.1) m.1.2 (m.2.1, m.2.2)
      ((text.drop m.2.1).take (m.2.2 - m.2.1)))

/-! ## Bibliography validation (`validate_bibliography`) -/

/-- Status of one entry of the per-citation `citations` list. -/
inductive CitationStatus where
  | valid
  | unverified
deriving DecidableEq

/-- One entry of the per-citation `citations` list. -/
structure CitationEntry where
  citation : Citation
  status : CitationStatus
deriving DecidableEq

/-- The dictionary returned by `validate_bibliography`. -/
structure BibResult where
  total_citations : Nat
  valid_citations : Nat
  invalid_citations : Nat
  citations : List CitationEntry
  errors : List String
  validation_rate : ℚ
deriving DecidableEq

/-- Mutable counters of the per-citation loop. -/
structure BibCounters where
  valid : Nat
  invalid : Nat
  entries : List CitationEntry
  errors : List String
deriving DecidableEq

/-- One iteration of the per-citation loop.  A numbered citation is counted
valid outright; an author-year citation is resolved through the external
CrossRef search, modelled by `resolve` (`.ok true` — a hit with relevance
score above 80; `.ok false` — no such hit; `.error` — an exception escaping
the per-citation body, caught by the per-citation `except`, which counts the
citation invalid and records the message). -/
def processCitation (resolve : List Char → Nat → Except String Bool)
    (acc : BibCounters) (c : Citation) : BibCounters :=
  match c with
  | Citation.numbered _ _ _ =>
    { acc with valid := acc.valid + 1, entries := acc.entries ++ [⟨c, CitationStatus.valid⟩] }
  | Citation.authorYear a y _ _ =>
    match resolve a y with
    | Except.ok true =>
      { acc with valid := acc.valid + 1, entries := acc.entries ++ [⟨c, CitationStatus.valid⟩] }
    | Except.ok false =>
      { acc with invalid := acc.invalid + 1,
                 entries := acc.entries ++ [⟨c, CitationStatus.unverified⟩] }
    | Except.error e =>
      { acc with invalid := acc.invalid + 1, errors := acc.errors ++ [e] }

/-- `validate_bibliography`.  The argument `extraction` is the outcome of the
body up to the loop (an exception there, or anywhere outside the loop, is
caught by the outermost `except`, which returns the zeroed dictionary).
`validation_rate` is `valid / total` when `total > 0` and `0.0` otherwise. -/
def validate_bibliography (resolve : List Char → Nat → Except String Bool)
    (extraction : Except String (List Citation)) : BibResult :=
  match extraction with
  | Except.error e =>
    { total_citations := 0, valid_citations := 0, invalid_citations := 0,
      citations := [], errors := [e], validation_rate := 0 }
  | Except.ok cits =>
    let acc := cits.foldl (processCitation resolve) ⟨0, 0, [], []⟩
    { total_citations := cits.length
      valid_citations := acc.valid
      invalid_citations := acc.invalid
      citations := acc.entries
      errors := acc.errors
      validation_rate :=
        if cits.length > 0 then (acc.valid : ℚ) / (cits.length : ℚ) else 0 }

/-! ## Readability analyzer (`readability_analyzer.py`) -/

/-- `re.sub(r'<[^>]+>', '', text)`: remove HTML tags.  Any `fuel ≥ l.length`
computes the full scan. -/
def removeTagsAux : Nat → List Char → List Char
  | _, [] => []
  | 0, l => l
  | fuel + 1, c :: cs =>
    if c == '<' then
      let q := cs.takeWhile (fun d => d != '>')
      match q.isEmpty, cs.drop q.length with
      | false, '>' :: rem => removeTagsAux fuel rem
      | _, _ => c :: removeTagsAux fuel cs
    else c :: removeTagsAux fuel cs

/-- `re.sub(r'<[^>]+>', '', text)` at standard fuel. -/
def removeTags (l : List Char) : List Char :=
  removeTagsAux l.length l

/-- `re.sub(r'\s+', ' ', text)`: collapse whitespace runs to single spaces.
Any `fuel ≥ l.length` computes the full scan. -/
def collapseWsAux : Nat → List Char → List Char
  | _, [] => []
  | 0, l => l
  | fuel + 1, c :: cs =>
    if isPyWs c then ' ' :: collapseWsAux fuel (cs.dropWhile isPyWs)
    else c :: collapseWsAux fuel cs

/-- `re.sub(r'\s+', ' ', text)` at standard fuel. -/
def collapseWs (l : List Char) : List Char :=
  collapseWsAux l.length l

/-- `_clean_text`: remove HTML tags, collapse whitespace, strip. -/
def cleanText (l : List Char) : List Char :=
  pyStrip (collapseWs (removeTags l))

/-- `re.split('[…]+', text)`: segments between maximal runs of separator
characters, boundary empties included.  Any `fuel ≥ l.length` computes the
full scan. -/
def splitOnRunsAux (isSep : Char → Bool) : Nat → List Char → List (List Char)
  | _, [] => [[]]
  | 0, l => [l]
  | fuel + 1, c :: cs =>
    if isSep c then
      [] :: splitOnRunsAux isSep fuel (cs.dropWhile isSep)
    else
      match splitOnRunsAux isSep fuel cs with
      | [] => [[c]]
      | seg :: rest => (c :: seg) :: rest

/-- `re.split` at standard fuel. -/
def splitOnRuns (isSep : Char → Bool) (l : List Char) : List (List Char) :=
  splitOnRunsAux isSep l.length l

/-- Sentence splitting shared shape: split on the separators, strip each
segment, keep the nonempty ones. -/
def splitSentences (isSep : Char → Bool) (l : List Char) : List (List Char) :=
  ((splitOnRuns isSep l).map pyStrip).filter (fun s => !s.isEmpty)

/-- `_count_sentences_english`: split on `[.!?]+`. -/
def countSentencesEnglish (l : List Char) : List (List Char) :=
  splitSentences (fun c => c == '.' || c == '!' || c == '?') l

/-- `_count_sentences_chinese`: split on `[。！？；\n]+`. -/
def countSentencesChinese (l : List Char) : List (List Char) :=
  splitSentences (fun c => c == '。' || c == '！' || c == '？' || c == '；' || c == '\n') l

/-- Characters matched by `\w`.  ASCII word characters, with the CJK
unified-ideograph block standing in for Python's wider Unicode word class
(no other non-ASCII word characters occur in the texts considered here). -/
def isWordChar (c : Char) : Bool :=
  c.isAlphanum || c == '_' || (0x4E00 ≤ c.toNat && c.toNat ≤ 0x9FFF)

/-- `re.findall(r'\b\w+\b', s)`: the maximal runs of word characters.
Any `fuel ≥ l.length` computes the full scan. -/
def wordRunsAux : Nat → List Char → List (List Char)
  | _, [] => []
  | 0, _ => []
  | fuel + 1, c :: cs =>
    if isWordChar c then
      let run := (c :: cs).takeWhile isWordChar
      run :: wordRunsAux fuel ((c :: cs).drop run.length)
    else wordRunsAux fuel cs

/-- `re.findall(r'\b\w+\b', cleaned_text.lower())`. -/
def englishWords (l : List Char) : List (List Char) :=
  let low := l.map Char.toLower
  wordRunsAux low.length low

/-- Vowels of the syllable heuristic, `y` included. -/
def isVowelY (c : Char) : Bool :=
  c == 'a' || c == 'e' || c == 'i' || c == 'o' || c == 'u' || c == 'y'

/-- Count of maximal vowel runs `[aeiouy]+`.  Any `fuel ≥ l.length` computes
the full count. -/
def vowelGroupsAux : Nat → List Char → Nat
  | _, [] => 0
  | 0, _ => 0
  | fuel + 1, c :: cs =>
    if isVowelY c then 1 + vowelGroupsAux fuel (cs.dropWhile isVowelY)
    else vowelGroupsAux fuel cs

/-- `_count_syllables`: vowel groups, minus a trailing silent `e`, at
least 1; `0` for the empty word. -/
def count_syllables (w : List Char) : Nat :=
  if w.isEmpty then 0
  else
    let wl := w.map Char.toLower
    let s := vowelGroupsAux wl.length wl
    let s := if wl.getLast? == some 'e' then s - 1 else s
    max 1 s

/-- The `ReadabilityMetrics` dataclass. -/
structure ReadabilityMetrics where
  flesch_score : ℚ
  flesch_grade : ℚ
  sentences : Nat
  words : Nat
  syllables : Nat
  avg_sentence_length : ℚ
  avg_syllables_per_word : ℚ
  readability_level : String
  suggestions : List String
deriving DecidableEq

/-- `_get_readability_level`. -/
def getReadabilityLevel (s : ℚ) : String :=
  if s ≥ 90 then "非常易读"
  else if s ≥ 80 then "易读"
  else if s ≥ 70 then "中等易读"
  else if s ≥ 60 then "标准"
  else if s ≥ 50 then "较难"
  else if s ≥ 30 then "困难"
  else "非常困难"

/-- `_calculate_chinese_grade`. -/
def calculateChineseGrade (s : ℚ) : ℚ :=
  if s ≥ 90 then 5
  else if s ≥ 80 then 6
  else if s ≥ 70 then 7
  else if s ≥ 60 then 8
  else if s ≥ 50 then 9
  else if s ≥ 40 then 10
  else if s ≥ 30 then 11
  else 12

/-- `_get_suggestions_chinese`. -/
def getSuggestionsChinese (score asl acw : ℚ) : List String :=
  if score < 70 then
    ["文本可读性偏低，建议进行以下优化："] ++
    (if asl > 20 then ["• 句子过长，建议将长句分解为多个短句"] else []) ++
    (if acw > 5/2 then ["• 用词偏复杂，建议使用更简单的词汇"] else []) ++
    ["• 增加过渡词和连接词，提高逻辑连贯性", "• 考虑使用更多的具体例子和说明"]
  else ["文本可读性良好，达到目标标准"]

/-- `_get_suggestions_english`. -/
def getSuggestionsEnglish (score asl aspw : ℚ) : List String :=
  if score < 70 then
    ["Text readability is below target, consider these improvements:"] ++
    (if asl > 20 then ["• Sentences are too long, break them into shorter ones"] else []) ++
    (if aspw > 3/2 then ["• Words are too complex, use simpler vocabulary"] else []) ++
    ["• Add transition words for better flow",
     "• Use more concrete examples and explanations"]
  else ["Text readability is good, meets target standards"]

/-- `_analyze_english_text`. -/
def analyzeEnglish (text : List Char) : ReadabilityMetrics :=
  let cleaned := cleanText text
  let sc := (countSentencesEnglish cleaned).length
  let ws := englishWords cleaned
  let wc := ws.length
  let syl := (ws.map count_syllables).sum
  let asl : ℚ := (wc : ℚ) / (max sc 1 : ℚ)
  let aspw : ℚ := (syl : ℚ) / (max wc 1 : ℚ)
  let raw : ℚ := 206835/1000 - (203/200) * asl - (423/5) * aspw
  let score := max 0 (min 100 raw)
  { flesch_score := score
    flesch_grade := max 0 ((39/100) * asl + (59/5) * aspw - 1559/100)
    sentences := sc
    words := wc
    syllables := syl
    avg_sentence_length := asl
    avg_syllables_per_word := aspw
    readability_level := getReadabilityLevel score
    suggestions := getSuggestionsEnglish score asl aspw }

/-- `_analyze_chinese_text`.  `jieba.cut` is an external library (not part of
the repository), so the Chinese branch is parameterized over the word
segmentation `tokenizer` it returns. -/
def analyzeChinese (tokenizer : List Char → List (List Char)) (text : List Char) :
    ReadabilityMetrics :=
  let cleaned := cleanText text
  let sc := (countSentencesChinese cleaned).length
  let ws := (tokenizer cleaned).filter (fun w => !(pyStrip w).isEmpty)
  let wc := ws.length
  let cc := (ws.map List.length).sum
  let asl : ℚ := (wc : ℚ) / (max sc 1 : ℚ)
  let acw : ℚ := (cc : ℚ) / (max wc 1 : ℚ)
  let raw : ℚ := 206835/1000 - (203/200) * asl - (423/5) * acw
  let score := max 0 (min 100 raw)
  { flesch_score := score
    flesch_grade := calculateChineseGrade score
    sentences := sc
    words := wc
    syllables := cc
    avg_sentence_length := asl
    avg_syllables_per_word := acw
    readability_level := getReadabilityLevel score
    suggestions := getSuggestionsChinese score asl acw }

/-- The literal common-Chinese-character set of `ReadabilityAnalyzer.__init__`
(`self.chinese_chars`). -/
def chineseChars : List Char :=
  "的一是了我不人在他有这个上们来到时大地为子中你说生国年着就那和要她出也得里后自以会家可下而过天去能对小多然于心学么之都好看起发当没成只如事把还用第样道想作种开美总从无情己面最女但现前些所同日手又行意动方期它头经长儿回位分爱老因很给名法间斯知世什两次使身者被高已亲其进此话常与活正感".data

/-- `_is_chinese_text`: the count of characters belonging to
`chinese_chars`, over the length of the text with `' '` and `'\n'`
removed, must exceed `0.3`. -/
def is_chinese_text (text : List Char) : Bool :=
  let cnt := (text.filter (fun c => chineseChars.contains c)).length
  let total := (text.filter (fun c => !(c == ' ' || c == '\n'))).length
  decide ((cnt : ℚ) / (max total 1 : ℚ) > 3/10)

/-- The metrics returned by `analyze_text` for empty or whitespace-only
input. -/
def emptyTextMetrics : ReadabilityMetrics :=
  { flesch_score := 0, flesch_grade := 0, sentences := 0, words := 0,
    syllables := 0, avg_sentence_length := 0, avg_syllables_per_word := 0,
    readability_level := "无法分析", suggestions := ["文本为空，无法分析"] }

/-- `analyze_text`: empty guard, language detection, branch dispatch. -/
def analyze_text (tokenizer : List Char → List (List Char)) (text : List Char) :
    ReadabilityMetrics :=
  if text.isEmpty || (pyStrip text).isEmpty then emptyTextMetrics
  else if is_chinese_text text then analyzeChinese tokenizer text
  else analyzeEnglish text

/-! ## Workflow engine (`workflow_engine.py`, `database_models.py`)

The persistent entities (`WorkflowDocument`, `WorkflowNode`, `NodeMetrics`)
and the celery stage tasks are modelled by an explicit `EngineState`:
the single document under consideration, its node history in creation
order, and the log of enqueued stage tasks.  `created_at` timestamps and
row ids are modelled by the monotone counter `nextId`; running an enqueued
task is modelled by invoking the corresponding step function. -/

/-- `WorkflowStatus` (database_models.py). -/
inductive WorkflowStatus where
  | idle
  | planning
  | drafting
  | citationCheck
  | grammarCheck
  | readabilityCheck
  | done
  | failed
deriving DecidableEq

/-- `NodeType` (database_models.py). -/
inductive NodeType where
  | plan
  | draft
  | citation
  | grammar
  | readability
  | userEdit
  | plugin
deriving DecidableEq

/-- `NodeStatus` (database_models.py). -/
inductive NodeStatus where
  | pending
  | running
  | pass
  | fail
deriving DecidableEq

/-- `NodeMetrics` (database_models.py), restricted to the metric columns;
`processing_time` and `token_usage` are wall-clock/LLM artifacts and are
not modelled. -/
structure NodeMetrics where
  readability_score : Option ℚ
  grammar_errors : Option Nat
  citation_count : Option Nat
  word_count : Option Nat
deriving DecidableEq

/-- `WorkflowNode` (database_models.py): `retry_count` defaults to 0 and
`status` to pending at creation; the engine creates nodes as running. -/
structure WorkflowNode where
  id : Nat
  typ : NodeType
  status : NodeStatus
  content : String
  retry_count : Nat
  createdAt : Nat
  metrics : Option NodeMetrics
deriving DecidableEq

/-- The recognized options of `WorkflowDocument.config`, read by the engine
with `config.get('max_retries', 3)` and
`config.get('readability_threshold', 70.0)`. -/
structure EngineConfig where
  max_retries : Option Nat
  readability_threshold : Option ℚ
deriving DecidableEq

/-- `WorkflowDocument` (database_models.py), restricted to the fields the
engine reads and writes. -/
structure WorkflowDocument where
  status : WorkflowStatus
  content : String
  config : EngineConfig
deriving DecidableEq

/-- A celery stage job (`plan_document`, `draft_document`, `check_citations`,
`check_grammar`, `check_readability`) with its text argument. -/
inductive StageTask where
  | planTask (prompt : String)
  | draftTask (outline : String)
  | citationTask (content : String)
  | grammarTask (content : String)
  | readabilityTask (content : String)
deriving DecidableEq

/-- The state acted on by the engine: document, node history in creation
order, log of enqueued tasks, monotone id/timestamp counter. -/
structure EngineState where
  doc : WorkflowDocument
  nodes : List WorkflowNode
  tasks : List StageTask
  nextId : Nat
deriving DecidableEq

/-- Node creation (`WorkflowNode(document_id=…, type=…, status=RUNNING,
content=…)`): fresh id and timestamp, `retry_count` at its column default 0. -/
def newNode (st : EngineState) (t : NodeType) (content : String) : WorkflowNode :=
  { id := st.nextId, typ := t, status := NodeStatus.running, content := content,
    retry_count := 0, createdAt := st.nextId, metrics := none }

/-- The most recent Plan node with status Pass (`rollback_to_draft`'s
query: filter by type and status, order by `created_at` descending,
limit 1). -/
def latestPassPlan (nodes : List WorkflowNode) : Option WorkflowNode :=
  (nodes.filter fun n =>
    decide (n.typ = NodeType.plan ∧ n.status = NodeStatus.pass)).getLast?

/-- `rollback_to_draft`: re-enqueue a Draft job with the most recent passed
Plan artifact; no node and no document field is touched.  When no passed
Plan node exists, nothing happens. -/
def rollback_to_draft (st : EngineState) : EngineState :=
  match latestPassPlan st.nodes with
  | some p => { st with tasks := st.tasks ++ [StageTask.draftTask p.content] }
  | none => st

/-- Python `len(content.split())`: number of maximal non-whitespace chunks. -/
def wordCountPy (s : String) : Nat :=
  ((splitOnRuns isPyWs s.data).filter (fun w => !w.isEmpty)).length

/-- `draft_document`, success path: create the Draft node, run the LLM
(`generated` is the external LLM output), mark the node Pass with the
generated content, set the document content tentatively and its status to
CitationCheck, record word-count metrics and enqueue the Citation job.
Returns the resulting state and the Draft node as committed. -/
def draft_document (st : EngineState) (outline generated : String) :
    EngineState × WorkflowNode :=
  let node := { newNode st NodeType.draft outline with
                status := NodeStatus.pass, content := generated,
                metrics := some { readability_score := none, grammar_errors := none,
                                  citation_count := none,
                                  word_count := some (wordCountPy generated) } }
  ({ doc := { st.doc with content := generated, status := WorkflowStatus.citationCheck },
     nodes := st.nodes ++ [node],
     tasks := st.tasks ++ [StageTask.citationTask generated],
     nextId := st.nextId + 1 }, node)

/-- `check_citations`: create the Citation node and apply the gate to the
validation result `vr` (the output of `validate_bibliography`).  On
`validation_rate < 0.8 and citation_count > 0` the node is marked Fail and,
when its (fresh) `retry_count` is below `max_retries`, the count is
incremented and the engine rolls back to Draft; otherwise the raised
`ValueError` leaves the node Fail and the document untouched.  Otherwise
the node is marked Pass, `citation_count` is recorded and the Grammar job
is enqueued.  Returns the resulting state and the Citation node as
committed. -/
def check_citations (st : EngineState) (content : String) (vr : BibResult) :
    EngineState × WorkflowNode :=
  let node0 := newNode st NodeType.citation content
  if vr.validation_rate < 4/5 ∧ vr.total_citations > 0 then
    if node0.retry_count < st.doc.config.max_retries.getD 3 then
      let node := { node0 with
                    status := NodeStatus.fail
                    retry_count := node0.retry_count + 1 }
      (rollback_to_draft { st with nodes := st.nodes ++ [node], nextId := st.nextId + 1 },
       node)
    else
      let node := { node0 with status := NodeStatus.fail }
      ({ st with nodes := st.nodes ++ [node], nextId := st.nextId + 1 }, node)
  else
    let node := { node0 with
                  status := NodeStatus.pass
                  metrics := some { readability_score := none, grammar_errors := none,
                                    citation_count := some vr.total_citations,
                                    word_count := none } }
    ({ st with
       nodes := st.nodes ++ [node],
       tasks := st.tasks ++ [StageTask.grammarTask content],
       nextId := st.nextId + 1 }, node)

/-- `check_grammar`: create the Grammar node; with more than 5 errors the
node is marked Fail, its `retry_count` incremented (before the retry check,
unlike Citation), and the engine rolls back to Draft while the count stays
below `max_retries`; otherwise the node is marked Pass with the corrected
content, `grammar_errors` recorded, and the Readability job enqueued. -/
def check_grammar (st : EngineState) (content : String)
    (grammar_errors : Nat) (corrected : String) : EngineState × WorkflowNode :=
  let node0 := newNode st NodeType.grammar content
  if grammar_errors > 5 then
    let node := { node0 with
                  status := NodeStatus.fail
                  retry_count := node0.retry_count + 1 }
    let st2 : EngineState :=
      { st with nodes := st.nodes ++ [node], nextId := st.nextId + 1 }
    if node.retry_count < st.doc.config.max_retries.getD 3 then
      (rollback_to_draft st2, node)
    else (st2, node)
  else
    let node := { node0 with
                  status := NodeStatus.pass
                  content := corrected
                  metrics := some { readability_score := none,
                                    grammar_errors := some grammar_errors,
                                    citation_count := none, word_count := none } }
    ({ st with
       nodes := st.nodes ++ [node],
       tasks := st.tasks ++ [StageTask.readabilityTask corrected],
       nextId := st.nextId + 1 }, node)

/-- `check_readability`: create the Readability node; `score` is the
analyzer's `flesch_score` and `report_words` its word statistic.  Below the
configured threshold the node is marked Fail with its `retry_count`
incremented and metrics recorded, and the engine rolls back to Draft while
the count stays below `max_retries`.  At or above the threshold the node is
marked Pass, the document status becomes Done and its content the checked
artifact. -/
def check_readability (st : EngineState) (content : String) (score : ℚ)
    (report_words : Nat) : EngineState × WorkflowNode :=
  let node0 := newNode st NodeType.readability content
  let metrics : NodeMetrics :=
    { readability_score := some score, grammar_errors := none,
      citation_count := none, word_count := some report_words }
  if score < st.doc.config.readability_threshold.getD 70 then
    let node := { node0 with
                  status := NodeStatus.fail
                  retry_count := node0.retry_count + 1
                  metrics := some metrics }
    let st2 : EngineState :=
      { st with nodes := st.nodes ++ [node], nextId := st.nextId + 1 }
    if node.retry_count < st.doc.config.max_retries.getD 3 then
      (rollback_to_draft st2, node)
    else (st2, node)
  else
    let node := { node0 with status := NodeStatus.pass, metrics := some metrics }
    ({ doc := { status := WorkflowStatus.done, content := content,
                config := st.doc.config },
       nodes := st.nodes ++ [node], tasks := st.tasks, nextId := st.nextId + 1 },
     node)

/-- `start_workflow`: set the document to Planning and enqueue the Plan job. -/
def start_workflow (st : EngineState) (user_prompt : String) : EngineState :=
  { st with
    doc := { st.doc with status := WorkflowStatus.planning },
    tasks := st.tasks ++ [StageTask.planTask user_prompt] }

/-- The `rollback_to_node` API route (`api/routes/workflow.py`): find the
target node, delete every node created strictly after it, then restart the
stage the target type calls for (Plan target restarts the workflow with the
node content; Draft target rolls back to Draft).  An unknown node id leaves
the state unchanged (the route answers 404). -/
def rollback_to_node (st : EngineState) (nodeId : Nat) : EngineState :=
  match st.nodes.find? (fun n => n.id == nodeId) with
  | none => st
  | some target =>
    let st1 : EngineState :=
      { st with nodes := st.nodes.filter fun n => decide (n.createdAt ≤ target.createdAt) }
    if target.typ = NodeType.plan then start_workflow st1 target.content
    else if target.typ = NodeType.draft then rollback_to_draft st1
    else st1

/-! ## Helper lemmas -/

/-- A pattern that occurs nowhere is never removed, at any fuel. -/
theorem removeAllAux_of_not_contains (p : List Char) :
    ∀ (fuel : Nat) (l : List Char), containsSub p l = false → removeAllAux p fuel l = l
  | _, [], _ => by simp [removeAllAux]
  | 0, _ :: _, _ => by simp [removeAllAux]
  | fuel + 1, c :: cs, h => by
    have hh : isPrefixList p (c :: cs) = false ∧ containsSub p cs = false := by
      simpa [containsSub] using h
    simp only [removeAllAux, hh.1, Bool.false_eq_true, if_false]
    rw [removeAllAux_of_not_contains p fuel cs hh.2]

/-- A pattern that occurs nowhere is never removed. -/
theorem removeAll_of_not_contains (p l : List Char) (h : containsSub p l = false) :
    removeAll p l = l :=
  removeAllAux_of_not_contains p l.length l h

/-- Every list is a Boolean prefix of itself extended. -/
theorem isPrefixList_append_self : ∀ (p l : List Char), isPrefixList p (p ++ l) = true
  | [], _ => rfl
  | a :: as, l => by simp [isPrefixList, isPrefixList_append_self as l]

/-- Removing a nonempty leading occurrence of the pattern from `p ++ rest`
leaves exactly `rest` when the pattern occurs nowhere in `rest`. -/
theorem removeAll_cancel (a : Char) (as rest : List Char)
    (h : containsSub (a :: as) rest = false) :
    removeAll (a :: as) ((a :: as) ++ rest) = rest := by
  have hpre : isPrefixList (a :: as) (a :: (as ++ rest)) = true := by
    have := isPrefixList_append_self (a :: as) rest
    simpa [List.cons_append] using this
  show removeAllAux (a :: as) (a :: (as ++ rest)).length (a :: (as ++ rest)) = rest
  rw [show (a :: (as ++ rest)).length = (as ++ rest).length + 1 from rfl]
  simp only [removeAllAux, hpre, if_true]
  rw [show List.drop (a :: as).length (a :: (as ++ rest)) = List.drop as.length (as ++ rest)
        from rfl]
  rw [List.drop_left]
  exact removeAllAux_of_not_contains _ _ _ h

/-- Dropping over an all-satisfying block continues behind it. -/
theorem dropWhile_append_all (q : Char → Bool) :
    ∀ (w l : List Char), (∀ c ∈ w, q c = true) → (w ++ l).dropWhile q = l.dropWhile q
  | [], _, _ => rfl
  | c :: cs, l, h => by
    have hc : q c = true := h c (List.mem_cons_self c cs)
    simp only [List.cons_append, List.dropWhile_cons, hc, if_true]
    exact dropWhile_append_all q cs l fun d hd => h d (List.mem_cons_of_mem c hd)

/-- `pyStrip` of whitespace, then `https://doi.org/`, then a trim-invariant
core, then whitespace, is the URL prefix followed by the core. -/
theorem pyStrip_sandwich (w1 w2 core : List Char)
    (hw1 : ∀ c ∈ w1, isPyWs c = true) (hw2 : ∀ c ∈ w2, isPyWs c = true)
    (hcore : core.reverse.dropWhile isPyWs = core.reverse) :
    pyStrip (w1 ++ (doiUrlPat ++ core) ++ w2) = doiUrlPat ++ core := by
  have hpat : doiUrlPat = 'h' :: "ttps://doi.org/".data := by decide
  have hh : isPyWs 'h' = false := by decide
  have hs : isPyWs '/' = false := by decide
  unfold pyStrip
  rw [show w1 ++ (doiUrlPat ++ core) ++ w2 = w1 ++ (doiUrlPat ++ (core ++ w2)) by
        simp [List.append_assoc]]
  rw [dropWhile_append_all isPyWs w1 (doiUrlPat ++ (core ++ w2)) hw1]
  have e2 : List.dropWhile isPyWs (doiUrlPat ++ (core ++ w2)) = doiUrlPat ++ (core ++ w2) := by
    rw [hpat]
    simp only [List.cons_append, List.dropWhile_cons, hh, Bool.false_eq_true, if_false]
  rw [e2]
  rw [show (doiUrlPat ++ (core ++ w2)).reverse =
        w2.reverse ++ (core.reverse ++ doiUrlPat.reverse) by
      simp [List.reverse_append, List.append_assoc]]
  rw [dropWhile_append_all isPyWs w2.reverse (core.reverse ++ doiUrlPat.reverse)
        (fun c hc => hw2 c (List.mem_reverse.mp hc))]
  rw [List.dropWhile_append, hcore]
  cases hre : core.reverse.isEmpty with
  | true =>
    have hce : core = [] := by
      cases core with
      | nil => rfl
      | cons x xs => simp at hre
    subst hce
    simp only [List.reverse_nil, List.isEmpty_nil, if_true]
    have e4 : List.dropWhile isPyWs doiUrlPat.reverse = doiUrlPat.reverse := by
      rw [show doiUrlPat.reverse = '/' :: "gro.iod//:sptth".data from by decide]
      simp only [List.dropWhile_cons, hs, Bool.false_eq_true, if_false]
    rw [e4]
    simp
  | false =>
    simp only [hre, Bool.false_eq_true, if_false]
    simp [List.reverse_append]

/-! ## C8 / C9: DOI cleaning -/

/-- Counterexample to C8: the claim "DOI normalization trims, strips the
leading URL prefixes and lowercases" is false on the code — the cleaning
step of `validate_doi` does not lowercase, as the upper-case DOI
`10.1000/ABC` shows. -/
theorem doi_cleaning_counterexample :
    cleanDoi "10.1000/ABC".data = "10.1000/ABC".data ∧
    specNormalizeDoi "10.1000/ABC".data = "10.1000/abc".data ∧
    cleanDoi "10.1000/ABC".data ≠ specNormalizeDoi "10.1000/ABC".data := by decide

/-- Amended C8: the cleaning step returns the input trimmed of surrounding
whitespace with every occurrence of `https://doi.org/`, and then of
`http://dx.doi.org/`, removed — case untouched: for whitespace `w1`, `w2`
and a trim-invariant core containing neither prefix,
`cleanDoi (w1 ++ "https://doi.org/" ++ core ++ w2) = core` verbatim. -/
theorem doi_cleaning_characterization (w1 w2 core : List Char)
    (hw1 : ∀ c ∈ w1, isPyWs c = true) (hw2 : ∀ c ∈ w2, isPyWs c = true)
    (hcore : core.reverse.dropWhile isPyWs = core.reverse)
    (h1 : containsSub doiUrlPat core = false)
    (h2 : containsSub doiDxPat core = false) :
    cleanDoi (w1 ++ (doiUrlPat ++ core) ++ w2) = core := by
  unfold cleanDoi
  rw [pyStrip_sandwich w1 w2 core hw1 hw2 hcore]
  rw [show doiUrlPat = 'h' :: "ttps://doi.org/".data by decide] at h1 ⊢
  rw [removeAll_cancel 'h' "ttps://doi.org/".data core h1]
  exact removeAll_of_not_contains _ _ h2

/-- Witness for the amended C8 at a concrete DOI URL. -/
theorem doi_cleaning_characterization_witness :
    cleanDoi ("  ".data ++ (doiUrlPat ++ "10.1000/ABC".data) ++ " ".data) =
      "10.1000/ABC".data :=
  doi_cleaning_characterization "  ".data " ".data "10.1000/ABC".data
    (by decide) (by decide) (by decide) (by decide) (by decide)

/-- Counterexample to C9: the claim "DOI normalization is idempotent" is
false on the code — for `"https://doi.org/ x"` the first cleaning leaves
`" x"` (the strip happens before the prefix removal), and the second
cleaning strips the space. -/
theorem doi_cleaning_not_idempotent :
    cleanDoi "https://doi.org/ x".data = " x".data ∧
    cleanDoi (cleanDoi "https://doi.org/ x".data) = "x".data ∧
    cleanDoi (cleanDoi "https://doi.org/ x".data) ≠ cleanDoi "https://doi.org/ x".data := by
  decide

/-- Amended C9: the cleaning step is idempotent on every input whose cleaned
form is trim-invariant and contains neither URL prefix (removal can create
new surrounding whitespace or new prefix occurrences; on such inputs
idempotence fails, as the counterexample shows). -/
theorem doi_cleaning_idempotent_on_clean (s : List Char)
    (hstrip : pyStrip (cleanDoi s) = cleanDoi s)
    (h1 : containsSub doiUrlPat (cleanDoi s) = false)
    (h2 : containsSub doiDxPat (cleanDoi s) = false) :
    cleanDoi (cleanDoi s) = cleanDoi s := by
  show removeAll doiDxPat (removeAll doiUrlPat (pyStrip (cleanDoi s))) = cleanDoi s
  rw [hstrip, removeAll_of_not_contains _ _ h1, removeAll_of_not_contains _ _ h2]

/-- Witness for the amended C9 at a concrete cleaned DOI. -/
theorem doi_cleaning_idempotent_on_clean_witness :
    cleanDoi (cleanDoi "https://doi.org/10.1000/j.2020.01".data) =
      cleanDoi "https://doi.org/10.1000/j.2020.01".data :=
  doi_cleaning_idempotent_on_clean "https://doi.org/10.1000/j.2020.01".data
    (by decide) (by decide) (by decide)

/-! ## C3: validation rate -/

/-- Counterexample to C3: the claim "validation_rate is 1.0 when
total_citations = 0" is false on the code — `validate_bibliography` sets it
to `0.0` in that case, as the empty text shows. -/
theorem validation_rate_zero_counterexample :
    (validate_bibliography (fun _ _ => Except.ok false)
        (Except.ok (extract_citations_from_text "".data))).total_citations = 0 ∧
    (validate_bibliography (fun _ _ => Except.ok false)
        (Except.ok (extract_citations_from_text "".data))).validation_rate = 0 ∧
    ¬ (validate_bibliography (fun _ _ => Except.ok false)
        (Except.ok (extract_citations_from_text "".data))).validation_rate = 1 := by
  decide

/-- Amended C3: `validation_rate` equals `valid_citations / total_citations`
when `total_citations > 0`, and equals `0.0` (not `1.0`) when
`total_citations = 0`. -/
theorem validation_rate_formula (resolve : List Char → Nat → Except String Bool)
    (cits : List Citation) :
    (validate_bibliography resolve (Except.ok cits)).total_citations = cits.length ∧
    (cits.length > 0 →
      (validate_bibliography resolve (Except.ok cits)).validation_rate =
        ((validate_bibliography resolve (Except.ok cits)).valid_citations : ℚ) /
          ((validate_bibliography resolve (Except.ok cits)).total_citations : ℚ)) ∧
    (cits.length = 0 →
      (validate_bibliography resolve (Except.ok cits)).validation_rate = 0) := by
  refine ⟨rfl, fun h => ?_, fun h => ?_⟩
  · simp [validate_bibliography, h]
  · simp [validate_bibliography, h]

/-- Witness for the amended C3 on a one-citation text. -/
theorem validation_rate_formula_witness :
    (validate_bibliography (fun _ _ => Except.ok false)
        (Except.ok [Citation.numbered 1 (0, 3) "[1]".data])).validation_rate =
      ((validate_bibliography (fun _ _ => Except.ok false)
          (Except.ok [Citation.numbered 1 (0, 3) "[1]".data])).valid_citations : ℚ) /
        ((validate_bibliography (fun _ _ => Except.ok false)
            (Except.ok [Citation.numbered 1 (0, 3) "[1]".data])).total_citations : ℚ) :=
  (validation_rate_formula (fun _ _ => Except.ok false)
      [Citation.numbered 1 (0, 3) "[1]".data]).2.1 (by decide)

/-! ## C6: readability score bounds -/

/-- C6: for every input text — empty and whitespace-only included — and
every word segmentation of the external tokenizer, the analyzer's score
lies in `[0, 100]`: the empty guard returns 0 and both language branches
clamp the Flesch value with `max(0, min(100, ·))`. -/
theorem analyze_text_score_bounds (tokenizer : List Char → List (List Char))
    (text : List Char) :
    0 ≤ (analyze_text tokenizer text).flesch_score ∧
      (analyze_text tokenizer text).flesch_score ≤ 100 := by
  unfold analyze_text
  split_ifs with h1 h2
  · exact ⟨le_refl 0, by norm_num [emptyTextMetrics]⟩
  · refine ⟨le_max_left 0 _, max_le (by norm_num) (min_le_left _ _)⟩
  · refine ⟨le_max_left 0 _, max_le (by norm_num) (min_le_left _ _)⟩

/-! ## C10: totality and error handling of validate_bibliography -/

/-- Whether the per-citation loop counts `c` as valid: numbered citations
always, author-year citations exactly when the resolution succeeds with a
relevance hit. -/
def citationValid (resolve : List Char → Nat → Except String Bool) (c : Citation) : Bool :=
  match c with
  | Citation.numbered _ _ _ => true
  | Citation.authorYear a y _ _ =>
    match resolve a y with
    | Except.ok true => true
    | _ => false

/-- The loop counters after folding: valid and invalid counts are the
counts of per-citation outcomes (an error outcome is counted invalid and
the loop continues). -/
theorem processCitation_foldl_counts (resolve : List Char → Nat → Except String Bool) :
    ∀ (cits : List Citation) (acc : BibCounters),
      (cits.foldl (processCitation resolve) acc).valid =
        acc.valid + cits.countP (citationValid resolve) ∧
      (cits.foldl (processCitation resolve) acc).invalid =
        acc.invalid + cits.countP (fun c => !citationValid resolve c)
  | [], acc => by simp
  | c :: cs, acc => by
    have ih := processCitation_foldl_counts resolve cs (processCitation resolve acc c)
    have goal1 : ((c :: cs).foldl (processCitation resolve) acc).valid =
        (cs.foldl (processCitation resolve) (processCitation resolve acc c)).valid := rfl
    have goal2 : ((c :: cs).foldl (processCitation resolve) acc).invalid =
        (cs.foldl (processCitation resolve) (processCitation resolve acc c)).invalid := rfl
    rw [goal1, goal2, ih.1, ih.2, List.countP_cons, List.countP_cons]
    cases c with
    | numbered n pos tx =>
      constructor
      · simp [processCitation, citationValid]
        omega
      · simp [processCitation, citationValid]
    | authorYear a y pos tx =>
      cases hr : resolve a y with
      | ok b =>
        cases b with
        | true =>
          constructor
          · simp [processCitation, citationValid, hr]
            omega
          · simp [processCitation, citationValid, hr]
        | false =>
          constructor
          · simp [processCitation, citationValid, hr]
          · simp [processCitation, citationValid, hr]
            omega
      | error e =>
        constructor
        · simp [processCitation, citationValid, hr]
        · simp [processCitation, citationValid, hr]
          omega

/-- Counting a Boolean predicate and its negation over a list covers it. -/
theorem countP_split (p : Citation → Bool) :
    ∀ (l : List Citation), l.countP p + l.countP (fun c => !p c) = l.length
  | [] => by simp
  | c :: cs => by
    have ih := countP_split p cs
    simp only [List.countP_cons, List.length_cons]
    cases h : p c <;> simp [h] <;> omega

/-- C10: `validate_bibliography` is total and never propagates an error.
An error outside the per-citation loop yields the zeroed well-formed
result; per-citation outcomes — error outcomes counted invalid — always
add up to the total; and the Citation gate passes the zeroed result with a
Pass node carrying `citation_count = 0`. -/
theorem validate_bibliography_error_handling
    (resolve : List Char → Nat → Except String Bool) (e : String)
    (cits : List Citation) (st : EngineState) (content : String) :
    validate_bibliography resolve (Except.error e) =
      { total_citations := 0, valid_citations := 0, invalid_citations := 0,
        citations := [], errors := [e], validation_rate := 0 } ∧
    (validate_bibliography resolve (Except.ok cits)).valid_citations =
      cits.countP (citationValid resolve) ∧
    (validate_bibliography resolve (Except.ok cits)).valid_citations +
        (validate_bibliography resolve (Except.ok cits)).invalid_citations =
      (validate_bibliography resolve (Except.ok cits)).total_citations ∧
    (check_citations st content (validate_bibliography resolve (Except.error e))).2.status =
      NodeStatus.pass ∧
    (check_citations st content (validate_bibliography resolve (Except.error e))).2.metrics =
      some { readability_score := none, grammar_errors := none,
             citation_count := some 0, word_count := none } := by
  have hc1 : (cits.foldl (processCitation resolve) ⟨0, 0, [], []⟩).valid =
      cits.countP (citationValid resolve) := by
    simpa using (processCitation_foldl_counts resolve cits ⟨0, 0, [], []⟩).1
  have hc2 : (cits.foldl (processCitation resolve) ⟨0, 0, [], []⟩).invalid =
      cits.countP (fun c => !citationValid resolve c) := by
    simpa using (processCitation_foldl_counts resolve cits ⟨0, 0, [], []⟩).2
  have hsplit := countP_split (citationValid resolve) cits
  have hzero : validate_bibliography resolve (Except.error e) =
      { total_citations := 0, valid_citations := 0, invalid_citations := 0,
        citations := [], errors := [e], validation_rate := 0 } := rfl
  refine ⟨hzero, ?_, ?_, ?_, ?_⟩
  · show (cits.foldl (processCitation resolve) ⟨0, 0, [], []⟩).valid = _
    exact hc1
  · show (cits.foldl (processCitation resolve) ⟨0, 0, [], []⟩).valid +
        (cits.foldl (processCitation resolve) ⟨0, 0, [], []⟩).invalid = cits.length
    rw [hc1, hc2]
    exact hsplit
  · rw [hzero]
    simp [check_citations]
  · rw [hzero]
    simp [check_citations]

/-! ## C2: the Citation gate -/

/-- C2: the Citation gate passes exactly when `total_citations = 0` or
`validation_rate ≥ 0.8`; on a pass the Citation node carries
`citation_count` in its metrics and the Grammar job is enqueued; and an
artifact from which the extractor finds no `[n]` and no `(Name, YYYY)`
citation always produces a Pass node with `citation_count = 0`. -/
theorem citation_gate_characterization (st : EngineState) (content : String)
    (vr : BibResult) :
    ((check_citations st content vr).2.status = NodeStatus.pass ↔
      (vr.total_citations = 0 ∨ (4/5 : ℚ) ≤ vr.validation_rate)) ∧
    ((check_citations st content vr).2.status = NodeStatus.pass →
      (check_citations st content vr).2.metrics =
        some { readability_score := none, grammar_errors := none,
               citation_count := some vr.total_citations, word_count := none } ∧
      (check_citations st content vr).1.tasks =
        st.tasks ++ [StageTask.grammarTask content]) ∧
    (extract_citations_from_text content.data = [] →
      ∀ resolve,
        (check_citations st content
          (validate_bibliography resolve
            (Except.ok (extract_citations_from_text content.data)))).2.status =
          NodeStatus.pass ∧
        (check_citations st content
          (validate_bibliography resolve
            (Except.ok (extract_citations_from_text content.data)))).2.metrics =
          some { readability_score := none, grammar_errors := none,
                 citation_count := some 0, word_count := none }) := by
  by_cases hc : vr.validation_rate < 4/5 ∧ vr.total_citations > 0
  · have hstat : (check_citations st content vr).2.status = NodeStatus.fail := by
      simp only [check_citations, if_pos hc]
      split_ifs <;> rfl
    refine ⟨?_, ?_, ?_⟩
    · rw [hstat]
      constructor
      · intro h
        exact absurd h (by simp)
      · intro h
        rcases h with h | h
        · omega
        · exact absurd hc.1 (not_lt.mpr h)
    · intro h
      rw [hstat] at h
      exact absurd h (by simp)
    · intro hext resolve
      rw [hext]
      have hv : validate_bibliography resolve (Except.ok ([] : List Citation)) =
          { total_citations := 0, valid_citations := 0, invalid_citations := 0,
            citations := [], errors := [], validation_rate := 0 } := rfl
      rw [hv]
      constructor
      · simp [check_citations]
      · simp [check_citations]
  · refine ⟨?_, ?_, ?_⟩
    · simp only [check_citations, if_neg hc]
      constructor
      · intro _
        by_cases hr : (4/5 : ℚ) ≤ vr.validation_rate
        · exact Or.inr hr
        · refine Or.inl ?_
          rcases not_and_or.mp hc with h | h
          · exact absurd (not_le.mp hr) h
          · omega
      · intro _
        trivial
    · intro _
      simp only [check_citations, if_neg hc]
      refine ⟨?_, ?_⟩ <;> trivial
    · intro hext resolve
      rw [hext]
      have hv : validate_bibliography resolve (Except.ok ([] : List Citation)) =
          { total_citations := 0, valid_citations := 0, invalid_citations := 0,
            citations := [], errors := [], validation_rate := 0 } := rfl
      rw [hv]
      constructor
      · simp [check_citations]
      · simp [check_citations]

/-- Witness for C2: a concrete state, the artifact `"hello world"` (no
citation pattern), and the validation result the pipeline computes for it. -/
theorem citation_gate_characterization_witness :
    (check_citations
        { doc := { status := WorkflowStatus.citationCheck, content := "hello world",
                   config := { max_retries := some 3, readability_threshold := none } },
          nodes := [], tasks := [], nextId := 0 } "hello world"
        (validate_bibliography (fun _ _ => Except.ok false)
          (Except.ok (extract_citations_from_text "hello world".data)))).2.status =
      NodeStatus.pass ∧
    (check_citations
        { doc := { status := WorkflowStatus.citationCheck, content := "hello world",
                   config := { max_retries := some 3, readability_threshold := none } },
          nodes := [], tasks := [], nextId := 0 } "hello world"
        (validate_bibliography (fun _ _ => Except.ok false)
          (Except.ok (extract_citations_from_text "hello world".data)))).2.metrics =
      some { readability_score := none, grammar_errors := none,
             citation_count := some 0, word_count := none } :=
  (citation_gate_characterization
      { doc := { status := WorkflowStatus.citationCheck, content := "hello world",
                 config := { max_retries := some 3, readability_threshold := none } },
        nodes := [], tasks := [], nextId := 0 } "hello world"
      (validate_bibliography (fun _ _ => Except.ok false)
        (Except.ok (extract_citations_from_text "hello world".data)))).2.2
    (by decide) (fun _ _ => Except.ok false)

/-! ## C4: the Readability gate -/

/-- C4: the Readability gate passes exactly when the score is at least the
configured threshold — equality included — and on a pass the document is
Done with the artifact as its content. -/
theorem readability_gate_characterization (st : EngineState) (content : String)
    (score : ℚ) (wc : Nat) :
    ((check_readability st content score wc).2.status = NodeStatus.pass ↔
      st.doc.config.readability_threshold.getD 70 ≤ score) ∧
    (st.doc.config.readability_threshold.getD 70 ≤ score →
      (check_readability st content score wc).1.doc.status = WorkflowStatus.done ∧
      (check_readability st content score wc).1.doc.content = content) := by
  by_cases h : score < st.doc.config.readability_threshold.getD 70
  · have hstat : (check_readability st content score wc).2.status = NodeStatus.fail := by
      simp only [check_readability, if_pos h]
      split_ifs <;> rfl
    refine ⟨?_, ?_⟩
    · rw [hstat]
      constructor
      · intro hcontra
        exact absurd hcontra (by simp)
      · intro hle
        exact absurd h (not_lt.mpr hle)
    · intro hle
      exact absurd h (not_lt.mpr hle)
  · refine ⟨?_, ?_⟩
    · simp only [check_readability, if_neg h]
      exact ⟨fun _ => not_lt.mp h, fun _ => by trivial⟩
    · intro _
      simp only [check_readability, if_neg h]
      refine ⟨?_, ?_⟩ <;> trivial

/-- Witness for C4: threshold 70 in the config, analyzer score exactly 70 —
the gate passes and the document is Done with the artifact. -/
theorem readability_gate_characterization_witness :
    (check_readability
        { doc := { status := WorkflowStatus.readabilityCheck, content := "prior",
                   config := { max_retries := some 3, readability_threshold := some 70 } },
          nodes := [], tasks := [], nextId := 0 } "artifact" 70 5).1.doc.status =
      WorkflowStatus.done ∧
    (check_readability
        { doc := { status := WorkflowStatus.readabilityCheck, content := "prior",
                   config := { max_retries := some 3, readability_threshold := some 70 } },
          nodes := [], tasks := [], nextId := 0 } "artifact" 70 5).1.doc.content =
      "artifact" :=
  (readability_gate_characterization
      { doc := { status := WorkflowStatus.readabilityCheck, content := "prior",
                 config := { max_retries := some 3, readability_threshold := some 70 } },
        nodes := [], tasks := [], nextId := 0 } "artifact" 70 5).2 (by decide)

/-! ## C5: rollback and the node history -/

/-- Engine-side rollback leaves the node history untouched. -/
theorem rollback_to_draft_nodes (st : EngineState) :
    (rollback_to_draft st).nodes = st.nodes := by
  unfold rollback_to_draft
  cases latestPassPlan st.nodes <;> rfl

/-- Document and node list of the example used against C5: a passed Plan
node, a passed Draft node, a failed Citation node. -/
def c5PlanNode : WorkflowNode :=
  { id := 0, typ := NodeType.plan, status := NodeStatus.pass, content := "outline",
    retry_count := 0, createdAt := 0, metrics := none }

def c5DraftNode : WorkflowNode :=
  { id := 1, typ := NodeType.draft, status := NodeStatus.pass, content := "draft",
    retry_count := 0, createdAt := 1, metrics := none }

def c5CitationNode : WorkflowNode :=
  { id := 2, typ := NodeType.citation, status := NodeStatus.fail, content := "draft",
    retry_count := 1, createdAt := 2, metrics := none }

def c5State : EngineState :=
  { doc := { status := WorkflowStatus.citationCheck, content := "draft",
             config := { max_retries := some 3, readability_threshold := none } },
    nodes := [c5PlanNode, c5DraftNode, c5CitationNode], tasks := [], nextId := 3 }

/-- Counterexample to C5: the claim "rollback never mutates or deletes
existing Nodes — for every rollback, including
`rollback_to(document_id, node_id)`" is false on the code — the API route
deletes every node created after the target, as rolling the example
document back to its Draft node shows (the Citation node is gone). -/
theorem api_rollback_deletes_nodes_counterexample :
    c5CitationNode ∈ c5State.nodes ∧
    c5CitationNode ∉ (rollback_to_node c5State 1).nodes ∧
    (rollback_to_node c5State 1).nodes.length + 1 = c5State.nodes.length := by decide

/-- Amended C5: the engine's gate-failure rollback is append-only — it
leaves the node history untouched and later stage runs only append (the
fresh Draft node starting a retry has `retry_count` 0; the increment goes
to the failing gate node instead) — while the `rollback_to` API route
keeps exactly the nodes created no later than the target. -/
theorem rollback_node_preservation (st : EngineState) (content : String)
    (vr : BibResult) (score : ℚ) (wc : Nat) (outline generated : String)
    (nodeId : Nat) :
    (rollback_to_draft st).nodes = st.nodes ∧
    (check_citations st content vr).1.nodes.take st.nodes.length = st.nodes ∧
    (check_readability st content score wc).1.nodes.take st.nodes.length = st.nodes ∧
    (draft_document st outline generated).1.nodes.take st.nodes.length = st.nodes ∧
    (draft_document st outline generated).2.retry_count = 0 ∧
    (∀ target, st.nodes.find? (fun n => n.id == nodeId) = some target →
      (rollback_to_node st nodeId).nodes =
        st.nodes.filter fun n => decide (n.createdAt ≤ target.createdAt)) := by
  refine ⟨rollback_to_draft_nodes st, ?_, ?_, ?_, rfl, ?_⟩
  · have hx : (check_citations st content vr).1.nodes =
        st.nodes ++ [(check_citations st content vr).2] := by
      simp only [check_citations]
      split_ifs <;> simp [rollback_to_draft_nodes]
    rw [hx]
    exact List.take_left st.nodes _
  · have hx : (check_readability st content score wc).1.nodes =
        st.nodes ++ [(check_readability st content score wc).2] := by
      simp only [check_readability]
      split_ifs <;> simp [rollback_to_draft_nodes]
    rw [hx]
    exact List.take_left st.nodes _
  · rw [show (draft_document st outline generated).1.nodes = st.nodes ++
        [(draft_document st outline generated).2] from rfl]
    exact List.take_left st.nodes _
  · intro target ht
    unfold rollback_to_node
    rw [ht]
    dsimp only
    split_ifs
    · rfl
    · rw [rollback_to_draft_nodes]
    · rfl

/-- Witness for the amended C5: rolling the example document back to the
Draft node keeps exactly the nodes with `created_at ≤ 1`. -/
theorem rollback_node_preservation_witness :
    (rollback_to_node c5State 1).nodes =
      c5State.nodes.filter fun n => decide (n.createdAt ≤ c5DraftNode.createdAt) :=
  (rollback_node_preservation c5State "draft"
      { total_citations := 0, valid_citations := 0, invalid_citations := 0,
        citations := [], errors := [], validation_rate := 0 } 0 0 "outline" "generated"
      1).2.2.2.2.2 c5DraftNode (by decide)

/-! ## C1: retry exhaustion -/

/-- A validation result failing the Citation gate (two citations, none
valid). -/
def c1FailResult : BibResult :=
  { total_citations := 2, valid_citations := 0, invalid_citations := 2,
    citations := [], errors := [], validation_rate := 0 }

/-- Initial state of the retry-exhaustion scenario: `max_retries = 2`, a
passed Plan node, document in CitationCheck. -/
def c1State0 : EngineState :=
  { doc := { status := WorkflowStatus.citationCheck, content := "draft-1",
             config := { max_retries := some 2, readability_threshold := none } },
    nodes := [{ id := 0, typ := NodeType.plan, status := NodeStatus.pass,
                content := "outline", retry_count := 0, createdAt := 0,
                metrics := none }],
    tasks := [], nextId := 1 }

/-- First Citation failure, Draft re-run, second failure, Draft re-run,
third failure. -/
def c1Step1 : EngineState × WorkflowNode := check_citations c1State0 "draft-1" c1FailResult

def c1Draft1 : EngineState × WorkflowNode := draft_document c1Step1.1 "outline" "draft-2"

def c1Step2 : EngineState × WorkflowNode := check_citations c1Draft1.1 "draft-2" c1FailResult

def c1Draft2 : EngineState × WorkflowNode := draft_document c1Step2.1 "outline" "draft-3"

def c1Step3 : EngineState × WorkflowNode := check_citations c1Draft2.1 "draft-3" c1FailResult

/-- C1 is right about the bound but wrong that the code enforces the
transition: with `max_retries = 2`, after the third consecutive Citation
gate failure every node's `retry_count` is still at most `max_retries`
(each run creates a fresh Citation node with `retry_count = 0`, incremented
once), but the document is NOT transitioned to Failed — it stays in
CitationCheck and the third failure enqueues yet another Draft job, so
`WorkflowStatus.FAILED` is never reached. -/
theorem citation_retry_exhaustion_behavior :
    c1Step3.1.doc.status = WorkflowStatus.citationCheck ∧
    ¬ c1Step3.1.doc.status = WorkflowStatus.failed ∧
    c1Step3.2.status = NodeStatus.fail ∧
    c1Step3.2.retry_count = 1 ∧
    c1Step3.1.tasks.getLast? = some (StageTask.draftTask "outline") ∧
    c1Step3.1.tasks.length = 5 ∧
    (∀ n ∈ c1Step3.1.nodes, n.typ = NodeType.citation →
      n.status = NodeStatus.fail ∧ n.retry_count = 1) ∧
    (∀ n ∈ c1Step3.1.nodes, n.retry_count ≤ 2) := by with_unfolding_all decide

/-! ## C7: language detection -/

/-- Counterexample to C7: the claim "`"你好 world 世界 hello"` is analyzed
on the CJK branch" is false on the code — the detector counts membership in
a fixed common-character set (which lacks 界), against the length without
spaces and newlines, giving 3/14 ≤ 0.3, so the Latin branch is taken. -/
theorem cjk_detection_counterexample :
    is_chinese_text "你好 world 世界 hello".data = false ∧
    analyze_text (fun l => [l]) "你好 world 世界 hello".data =
      analyzeEnglish "你好 world 世界 hello".data ∧
    ("你好 world 世界 hello".data.filter fun c => chineseChars.contains c).length = 3 ∧
    ("你好 world 世界 hello".data.filter fun c => !(c == ' ' || c == '\n')).length = 14 := by
  refine ⟨by with_unfolding_all decide, ?_, by decide, by decide⟩
  unfold analyze_text
  rw [if_neg (by decide), if_neg (by with_unfolding_all decide)]

/-- Amended C7: the analyzer selects the CJK branch exactly when the number
of characters belonging to the fixed common-Chinese-character set, weighed
against the character count without `' '` and `'\n'`, exceeds 0.3 (in
cross-multiplied form below); both `"hello world"` and
`"你好 world 世界 hello"` fall below that and use the Latin branch. -/
theorem cjk_detection_characterization (text : List Char) :
    (is_chinese_text text = true ↔
      3 * max ((text.filter fun c => !(c == ' ' || c == '\n')).length) 1 <
        10 * (text.filter fun c => chineseChars.contains c).length) ∧
    is_chinese_text "hello world".data = false ∧
    is_chinese_text "你好 world 世界 hello".data = false := by
  refine ⟨?_, by with_unfolding_all decide, by with_unfolding_all decide⟩
  unfold is_chinese_text
  rw [decide_eq_true_eq]
  set cnt := (text.filter fun c => chineseChars.contains c).length with hcnt
  set tot := (text.filter fun c => !(c == ' ' || c == '\n')).length with htot
  have hcast : ((max tot 1 : Nat) : ℚ) = (tot : ℚ) ⊔ 1 := by
    rw [Nat.cast_max, Nat.cast_one]
  have hm : (0 : ℚ) < ((max tot 1 : Nat) : ℚ) := by
    have h1 : (1 : Nat) ≤ max tot 1 := le_max_right _ 1
    exact_mod_cast Nat.lt_of_lt_of_le Nat.zero_lt_one h1
  rw [gt_iff_lt, ← hcast, div_lt_div_iff₀ (show (0:ℚ) < 10 by norm_num) hm]
  constructor
  · intro h
    have h2 : ((3 * max tot 1 : Nat) : ℚ) < ((10 * cnt : Nat) : ℚ) := by
      push_cast
      push_cast at h
      linarith
    exact_mod_cast h2
  · intro h
    have h2 : ((3 * max tot 1 : Nat) : ℚ) < ((10 * cnt : Nat) : ℚ) := by
      exact_mod_cast h
    push_cast at h2
    push_cast
    linarith

end Chusea
